import Mathlib

/-!
Shallow embedding of `server.c` (comp30023-2018-project-1), a static-file
HTTP server.  Byte buffers are modelled as `List Char` (one `Char` per byte;
all protocol text is ASCII).  The filesystem is modelled by two parameters:
`access : List Char → Bool` (the result of `access(path, F_OK)`) and
`content : List Char → Option (List Char)` (`some bytes` when `fopen` in
read mode succeeds and the file holds `bytes`; `none` when `fopen` fails,
e.g. the file exists but is not readable).  Process-terminating paths
(`exit(EXIT_FAILURE)`) and undefined behaviour (NULL dereference, buffer
underflow) are distinguished outcome constructors.
-/

namespace Server

/-- Convenience: the characters of a string literal. -/
def str (s : String) : List Char := s.toList

/-! ### Header constants (`server.c` lines 14-21) -/

/-- `const char *found = "%s 200 OK\r\n";` -/
def found : List Char := str "%s 200 OK\r\n"

/-- `const char *content_header = "Content-Type: %s\r\n";` -/
def content_header : List Char := str "Content-Type: %s\r\n"

/-- `const char *length_header = "Content-Length: %s\r\n\r\n";` -/
def length_header : List Char := str "Content-Length: %s\r\n\r\n"

/-- `const char *not_found = "%s 404 Not Found\r\n";` -/
def not_found : List Char := str "%s 404 Not Found\r\n"

/-- `const char *not_supported = "Content-Type: application/octet-stream\r\n";` -/
def not_supported : List Char := str "Content-Type: application/octet-stream\r\n"

/-- `const char *no_content = "Content-Length: 0\r\n\r\n";` -/
def no_content : List Char := str "Content-Length: 0\r\n\r\n"

/-- The hardcoded mime table `file_map` (`server.c` lines 24-29). -/
def file_map : List (List Char × List Char) :=
  [(str ".html", str "text/html"),
   (str ".jpg", str "image/jpeg"),
   (str ".css", str "text/css"),
   (str ".js", str "text/javascript")]

/-! ### `parse_request` (`server.c` lines 95-136)

`parse_request` copies the request, runs `strtok_r(copy, "\n", &saveptr)`
(which  writes a NUL over the first `'\n'` that follows the leading run of
`'\n'` characters, if any), then re-tokenises the copy from the start on
`' '` to pull out the method and the URI, duplicates the remaining
`saveptr` tail as the HTTP version and overwrites its last character
with NUL.  A missing token makes it pass NULL to `strdup` (undefined
behaviour / crash); an empty `saveptr` tail makes
`httpversion[strlen(saveptr)-1]` write before the buffer (undefined
behaviour).  Both are modelled as `none`. -/

/-- Buffer contents up to (excluding) the first `'\n'`: the effect of the
NUL that `strtok_r` writes over that `'\n'`. -/
def truncAtNl : List Char → List Char
  | [] => []
  | c :: rest => if c = '\n' then [] else c :: truncAtNl rest

/-- Effect on the buffer of `strtok_r(copy, "\n", &saveptr)`: leading
`'\n'` delimiters are skipped, and a NUL is written over the `'\n'`
terminating the first token (when there is one). -/
def step1 (l : List Char) : List Char :=
  if l.dropWhile (fun c => c = '\n') = [] then l
  else if (l.dropWhile (fun c => c = '\n')).any (fun c => c = '\n') then
    l.takeWhile (fun c => c = '\n') ++ truncAtNl (l.dropWhile (fun c => c = '\n'))
  else l

/-- `strtok_r(·, d, &saveptr)`: skip leading delimiters; `none` when no
token remains, otherwise the token and the `saveptr` tail (the text after
the delimiter that got overwritten by NUL, or `[]` when the token ran to
the end of the buffer). -/
def tok (l : List Char) (d : Char) : Option (List Char × List Char) :=
  if l.dropWhile (fun c => c = d) = [] then none
  else
    some ((l.dropWhile (fun c => c = d)).takeWhile (fun c => c ≠ d),
      ((l.dropWhile (fun c => c = d)).drop
        (((l.dropWhile (fun c => c = d)).takeWhile (fun c => c ≠ d)).length)).tail)

/-- `http_request` from `server.h`: method, URI and HTTP version. -/
structure http_request where
  method : List Char
  URI : List Char
  httpversion : List Char
  deriving DecidableEq, Repr

/-- `parse_request` (`server.c` lines 95-136).  `none` models the
undefined-behaviour paths: `strdup(NULL)` when a token is missing, and
the `httpversion[strlen(saveptr)-1]` buffer underflow when the
`saveptr` tail is empty. -/
def parse_request (response : List Char) : Option http_request :=
  match tok (step1 response) ' ' with
  | none => none
  | some (m, r1) =>
    match tok r1 ' ' with
    | none => none
    | some (u, r2) =>
      if r2 = [] then none
      else some ⟨m, u, r2.dropLast⟩

/-! ### `supported_file` and `get_full_path` (`server.c` lines 140-182) -/

/-- `supported_file` (`server.c` lines 140-150): linear scan of `file_map`
for an exact extension match. -/
def supported_file (extension : List Char) : Bool :=
  file_map.any (fun p => p.1 = extension)

/-- `strrchr(s, '.')`: the suffix of `s` starting at the last `'.'`,
or `none` when `s` has no `'.'`. -/
def after_last_dot : List Char → Option (List Char)
  | [] => none
  | c :: rest =>
    match after_last_dot rest with
    | some r => some r
    | none => if c = '.' then some (c :: rest) else none

/-- Status codes `FOUND` / `NOT_FOUND` from `server.h`. -/
inductive Status where
  | FOUND
  | NOT_FOUND
  deriving DecidableEq, Repr

/-- `get_full_path` (`server.c` lines 153-182): concatenates webroot and
path, takes the extension after the last dot, and reports `FOUND` exactly
when an extension exists, `access(full_path, F_OK) == 0`, and the
extension is supported; the concatenated path is returned either way. -/
def get_full_path (access : List Char → Bool) (webroot path : List Char) :
    List Char × Status :=
  match after_last_dot (webroot ++ path) with
  | some extension =>
    if access (webroot ++ path) && supported_file extension then
      (webroot ++ path, Status.FOUND)
    else (webroot ++ path, Status.NOT_FOUND)
  | none => (webroot ++ path, Status.NOT_FOUND)

/-! ### Response serialisation (`server.c` lines 185-333) -/

/-- `sprintf(buffer, fmt, data)` for the formats of `server.c`, each of
which holds exactly one `%s`. -/
def sprintf1 (fmt data : List Char) : List Char :=
  match fmt with
  | '%' :: 's' :: rest => data ++ rest
  | c :: rest => c :: sprintf1 rest data
  | [] => []

/-- `write_headers` (`server.c` lines 185-203): formats `data` into
`defaults` and writes the result to the socket; the bytes it emits. -/
def write_headers (data defaults : List Char) : List Char :=
  sprintf1 defaults data

/-- Loop of `get_length_bytes` (`while (temp != 0) { temp /= 10; count++; }`),
driven by explicit fuel so that it reduces structurally; the loop runs at
most `temp` times (each iteration strictly shrinks `temp`), so fuel `temp`
suffices. -/
def get_length_bytes_go : Nat → Nat → Nat
  | 0, _ => 0
  | fuel + 1, temp =>
    if temp = 0 then 0 else get_length_bytes_go fuel (temp / 10) + 1

/-- `get_length_bytes` (`server.c` lines 206-215): decimal digit count by
repeated division; `0` for input `0`. -/
def get_length_bytes (bytes : Nat) : Nat :=
  get_length_bytes_go bytes bytes

/-- Decimal digits of `n`, most significant first, `[]` for `0`; fueled
like `get_length_bytes_go` (helper for `decChars`). -/
def decAux_go : Nat → Nat → List Char
  | 0, _ => []
  | fuel + 1, n =>
    if n = 0 then [] else decAux_go fuel (n / 10) ++ [Char.ofNat (48 + n % 10)]

/-- `snprintf(buf, sz, "%zu", n)` payload before truncation: the decimal
rendering of `n`. -/
def decChars (n : Nat) : List Char :=
  if n = 0 then ['0'] else decAux_go n n

/-- `write_content_length` (`server.c` lines 218-241): sizes a buffer from
`get_length_bytes`, `snprintf`s the byte count into it (truncated to
`total_bytes` characters), and writes it through `length_header`. -/
def write_content_length (bytes_read : Nat) : List Char :=
  write_headers
    ((decChars bytes_read).take (length_header.length + get_length_bytes bytes_read))
    length_header

/-- `read_write_file` (`server.c` lines 244-296) after a successful
`fopen`: `file_size` is the `ftell` size probe and `read_bytes` what
`fread` returned.  Only when the two agree are the content-length header
and the body written; otherwise nothing is emitted. -/
def read_write_file (file_size : Nat) (read_bytes : List Char) : List Char :=
  if read_bytes.length = file_size then
    write_content_length read_bytes.length ++ read_bytes
  else []

/-- `construct_file_response` (`server.c` lines 298-333): status line,
then a Content-Type header — the mapped mime type when the extension of
`path` matches `file_map`, otherwise `application/octet-stream` (also
when `path` has no extension). -/
def construct_file_response (httpversion path status_fmt : List Char) :
    List Char :=
  match after_last_dot path with
  | none => write_headers httpversion status_fmt ++ not_supported
  | some extension =>
    match file_map.find? (fun p => p.1 = extension) with
    | some p => write_headers httpversion status_fmt ++ write_headers p.2 content_header
    | none => write_headers httpversion status_fmt ++ not_supported

/-! ### `process_client_request` (`server.c` lines 335-374) -/

/-- Outcome of one `process_client_request` call: the bytes written to the
client socket and how many times `close(client)` ran.  `processExit`
marks the `exit(EXIT_FAILURE)` paths (`read` failure, `fopen` failure);
`crash` marks undefined behaviour inside `parse_request`. -/
inductive Outcome where
  | ok : List Char → Nat → Outcome
  | processExit : List Char → Nat → Outcome
  | crash : List Char → Nat → Outcome
  deriving DecidableEq, Repr

/-- Number of `close(client)` calls an outcome performed. -/
def Outcome.closes : Outcome → Nat
  | ok _ n => n
  | processExit _ n => n
  | crash _ n => n

/-- `process_client_request` (`server.c` lines 335-374).  `readResult` is
what `read(client, …)` produced (`none` = `ERROR`, which the code answers
with `exit(EXIT_FAILURE)`).  On success the handler emits the response
for the resolved status and closes the socket exactly once at the end. -/
def process_client_request (access : List Char → Bool)
    (content : List Char → Option (List Char))
    (webroot : List Char) (readResult : Option (List Char)) : Outcome :=
  match readResult with
  | none => Outcome.processExit [] 0
  | some buffer =>
    match parse_request buffer with
    | none => Outcome.crash [] 0
    | some request =>
      match get_full_path access webroot request.URI with
      | (path, Status.FOUND) =>
        match content path with
        | none =>
          Outcome.processExit
            (construct_file_response request.httpversion path found) 0
        | some bytes =>
          Outcome.ok
            (construct_file_response request.httpversion path found
              ++ read_write_file bytes.length bytes) 1
      | (path, Status.NOT_FOUND) =>
        Outcome.ok
          (construct_file_response request.httpversion path not_found
            ++ no_content) 1

/-! ### Helper lemmas -/

/-- Formatting the status line of a 200 response. -/
lemma sprintf1_found (v : List Char) : sprintf1 found v = v ++ str " 200 OK\r\n" := rfl

/-- Formatting the status line of a 404 response. -/
lemma sprintf1_not_found (v : List Char) :
    sprintf1 not_found v = v ++ str " 404 Not Found\r\n" := rfl

/-- Formatting the Content-Type header. -/
lemma sprintf1_content (m : List Char) :
    sprintf1 content_header m = str "Content-Type: " ++ (m ++ str "\r\n") := rfl

/-- Formatting the Content-Length header. -/
lemma sprintf1_length (d : List Char) :
    sprintf1 length_header d = str "Content-Length: " ++ (d ++ str "\r\n\r\n") := rfl

/-- `get_full_path` always returns the concatenated path, whatever the
verdict. -/
lemma get_full_path_fst (access : List Char → Bool) (webroot path : List Char) :
    (get_full_path access webroot path).1 = webroot ++ path := by
  unfold get_full_path
  cases h : after_last_dot (webroot ++ path) with
  | none => rfl
  | some e =>
    dsimp only
    split <;> rfl

/-- With enough fuel, the decimal rendering has exactly the digit count
computed by the `get_length_bytes` loop. -/
lemma decAux_go_length (fuel : Nat) :
    ∀ n, n ≤ fuel → (decAux_go fuel n).length = get_length_bytes_go fuel n := by
  induction fuel with
  | zero => intro n _; rfl
  | succ fuel ih =>
    intro n hn
    unfold decAux_go get_length_bytes_go
    by_cases h : n = 0
    · simp [h]
    · have hlt : n / 10 < n := Nat.div_lt_self (Nat.pos_of_ne_zero h) (by norm_num)
      have hdiv : n / 10 ≤ fuel := by omega
      simp [h, ih (n / 10) hdiv]

/-- The `snprintf` buffer sized from `get_length_bytes` never truncates
the decimal byte count. -/
lemma decChars_take (n : Nat) :
    (decChars n).take (length_header.length + get_length_bytes n) = decChars n := by
  apply List.take_of_length_le
  have h22 : length_header.length = 22 := rfl
  rw [h22]
  unfold decChars get_length_bytes
  by_cases h : n = 0
  · simp [h, get_length_bytes_go]
  · rw [if_neg h, decAux_go_length n n (Nat.le_refl n)]
    omega

/-- The exact bytes `write_content_length` emits. -/
lemma write_content_length_eq (n : Nat) :
    write_content_length n = str "Content-Length: " ++ (decChars n ++ str "\r\n\r\n") := by
  unfold write_content_length write_headers
  rw [decChars_take]
  exact sprintf1_length (decChars n)

/-- When `fread` returns exactly the probed size, `read_write_file` emits
the content-length header followed by the body. -/
lemma read_write_file_eq (body : List Char) :
    read_write_file body.length body =
      str "Content-Length: " ++ (decChars body.length ++ (str "\r\n\r\n" ++ body)) := by
  unfold read_write_file
  rw [if_pos rfl, write_content_length_eq]
  simp [List.append_assoc]

/-- The Content-Type line `construct_file_response` always emits after the
status line: the mapped mime type when the extension of `path` matches
`file_map`, else `application/octet-stream` (also when `path` has no
extension). -/
def ctype_line (path : List Char) : List Char :=
  match after_last_dot path with
  | none => not_supported
  | some extension =>
    match file_map.find? (fun p => p.1 = extension) with
    | some p => write_headers p.2 content_header
    | none => not_supported

/-- `construct_file_response` decomposes into the status line and the
Content-Type line. -/
lemma construct_file_response_eq (v path fmt : List Char) :
    construct_file_response v path fmt = write_headers v fmt ++ ctype_line path := by
  unfold construct_file_response ctype_line
  cases h : after_last_dot path with
  | none => rfl
  | some e =>
    dsimp only
    cases h2 : file_map.find? (fun p => p.1 = e) <;> rfl

/-- Reduction of `process_client_request` on a parsed request whose path
resolves to `FOUND` and whose file opens successfully. -/
lemma process_found_eq (access : List Char → Bool)
    (content : List Char → Option (List Char)) (webroot raw m u v body : List Char)
    (hp : parse_request raw = some ⟨m, u, v⟩)
    (hfd : get_full_path access webroot u = (webroot ++ u, Status.FOUND))
    (hc : content (webroot ++ u) = some body) :
    process_client_request access content webroot (some raw) =
      Outcome.ok (construct_file_response v (webroot ++ u) found
        ++ read_write_file body.length body) 1 := by
  unfold process_client_request
  dsimp only
  rw [hp]
  dsimp only
  rw [hfd]
  dsimp only
  rw [hc]

/-- Reduction of `process_client_request` on a parsed request whose path
resolves to `NOT_FOUND`. -/
lemma process_notfound_eq (access : List Char → Bool)
    (content : List Char → Option (List Char)) (webroot raw m u v : List Char)
    (hp : parse_request raw = some ⟨m, u, v⟩)
    (hnf : get_full_path access webroot u = (webroot ++ u, Status.NOT_FOUND)) :
    process_client_request access content webroot (some raw) =
      Outcome.ok (construct_file_response v (webroot ++ u) not_found ++ no_content) 1 := by
  unfold process_client_request
  dsimp only
  rw [hp]
  dsimp only
  rw [hnf]

/-- A supported extension has a (unique) entry in `file_map`, and
`List.find?` returns it. -/
lemma find_of_supported (e : List Char) (hs : supported_file e = true) :
    ∃ mime, file_map.find? (fun p => p.1 = e) = some (e, mime) := by
  have h4 := hs
  unfold supported_file file_map at h4
  simp only [List.any_cons, List.any_nil, decide_eq_true_eq, Bool.or_eq_true,
    Bool.or_false] at h4
  rcases h4 with rfl | rfl | rfl | rfl
  · exact ⟨str "text/html", by decide⟩
  · exact ⟨str "image/jpeg", by decide⟩
  · exact ⟨str "text/css", by decide⟩
  · exact ⟨str "text/javascript", by decide⟩

/-! ### Claim theorems -/

/-- C5: when the number of bytes `fread` actually returned differs from
the size reported by the `ftell` probe, `read_write_file` aborts the body
write: neither the content-length header nor any body byte is emitted, so
no truncated or corrupt body is ever sent without a correct preceding
content-length header. -/
theorem read_write_file_aborts_on_short_read (file_size : Nat)
    (read_bytes : List Char) (h : read_bytes.length ≠ file_size) :
    read_write_file file_size read_bytes = [] := by
  unfold read_write_file
  rw [if_neg h]

/-- Witness for C5: a one-byte read against a probed size of two emits
nothing. -/
theorem read_write_file_aborts_on_short_read_witness :
    ([ 'a' ].length ≠ 2) ∧ read_write_file 2 ['a'] = [] :=
  ⟨by decide, read_write_file_aborts_on_short_read 2 ['a'] (by decide)⟩

/-- C6 (behaviour of the code at the failing inputs): the connection is
NOT closed on every exit path.  When `read` fails the code calls
`exit(EXIT_FAILURE)` before ever reaching `close(client)` (zero closes);
likewise when the resolved file exists but `fopen` fails, the process
exits with the socket still open.  Only the fully successful path closes
the socket (exactly once). -/
theorem connection_not_closed_on_failure_paths :
    (∀ (access : List Char → Bool) (content : List Char → Option (List Char))
      (webroot : List Char),
      (process_client_request access content webroot none).closes = 0) ∧
    (process_client_request (fun _ => true) (fun _ => none) (str "/w")
      (some (str "GET /a.html HTTP/1.1\r\n"))).closes = 0 :=
  ⟨fun _ _ _ => rfl, by decide⟩

/-- C7 (behaviour of the code at the failing input): a `read` failure on
an individual connection is not isolated to that connection — the code
calls `exit(EXIT_FAILURE)`, terminating the whole process, rather than
closing the one connection and returning the worker to idle. -/
theorem read_failure_terminates_process (access : List Char → Bool)
    (content : List Char → Option (List Char)) (webroot : List Char) :
    process_client_request access content webroot none =
      Outcome.processExit [] 0 :=
  rfl

/-- C3 (behaviour of the code at the failing input): a request line with
fewer than three whitespace-separated tokens makes `parse_request` hand
the NULL returned by `strtok_r` to `strdup` — undefined behaviour that
crashes the worker (modelled by `none` / `Outcome.crash`) instead of a
recoverable `ParseError`. -/
theorem parse_request_crashes_on_short_line :
    parse_request (str "GET\r\n") = none ∧
    (∀ (access : List Char → Bool) (content : List Char → Option (List Char))
      (webroot : List Char),
      process_client_request access content webroot (some (str "GET\r\n")) =
        Outcome.crash [] 0) := by
  refine ⟨by decide, fun access content webroot => ?_⟩
  unfold process_client_request
  dsimp only
  rw [show parse_request (str "GET\r\n") = none from by decide]

/-- C10: for a zero-byte file the digit-count helper returns 0 on input
0, yet the success response still carries a literal `Content-Length: 0`
header and exactly zero body bytes follow it. -/
theorem zero_byte_file_response :
    get_length_bytes 0 = 0 ∧
    write_content_length 0 = str "Content-Length: 0\r\n\r\n" ∧
    read_write_file 0 [] = str "Content-Length: 0\r\n\r\n" ∧
    process_client_request (fun _ => true) (fun _ => some []) (str "/w")
      (some (str "GET /a.html HTTP/1.1\r\n")) =
      Outcome.ok
        (str "HTTP/1.1 200 OK\r\nContent-Type: text/html\r\nContent-Length: 0\r\n\r\n")
        1 :=
  ⟨rfl, by decide, by decide, by decide⟩

/-- C2 counterexample: for request `GET /missing.html HTTP/1.1` with the
file absent, the response is NOT the claimed
`HTTP/1.1 404 Not Found\r\nContent-Length: 0\r\n\r\n` — the code always
emits a Content-Type line (here `Content-Type: text/html`) between the
status line and the zero content-length. -/
theorem notfound_response_counterexample :
    process_client_request (fun _ => false) (fun _ => none) (str "/w")
      (some (str "GET /missing.html HTTP/1.1\r\n")) ≠
      Outcome.ok (str "HTTP/1.1 404 Not Found\r\nContent-Length: 0\r\n\r\n") 1 ∧
    process_client_request (fun _ => false) (fun _ => none) (str "/w")
      (some (str "GET /missing.html HTTP/1.1\r\n")) =
      Outcome.ok
        (str "HTTP/1.1 404 Not Found\r\nContent-Type: text/html\r\nContent-Length: 0\r\n\r\n")
        1 :=
  ⟨by decide, by decide⟩

/-- C2 (amended): every request resolving to `NOT_FOUND` is answered with
the not-found status line, then a Content-Type line (the mapped mime type
when the extension matches, otherwise `application/octet-stream`), then
`Content-Length: 0`, and no body bytes. -/
theorem notfound_response_shape (access : List Char → Bool)
    (content : List Char → Option (List Char)) (webroot raw m u v : List Char)
    (hp : parse_request raw = some ⟨m, u, v⟩)
    (hnf : (get_full_path access webroot u).2 = Status.NOT_FOUND) :
    process_client_request access content webroot (some raw) =
      Outcome.ok (v ++ str " 404 Not Found\r\n" ++ ctype_line (webroot ++ u)
        ++ str "Content-Length: 0\r\n\r\n") 1 := by
  rw [process_notfound_eq access content webroot raw m u v hp
      (Prod.ext (get_full_path_fst access webroot u) hnf),
    construct_file_response_eq]
  rfl

/-- Witness for C2 (amended): the `GET /missing.html HTTP/1.1` scenario. -/
theorem notfound_response_shape_witness :
    process_client_request (fun _ => false) (fun _ => none) (str "/w")
      (some (str "GET /missing.html HTTP/1.1\r\n")) =
      Outcome.ok (str "HTTP/1.1" ++ str " 404 Not Found\r\n"
        ++ ctype_line (str "/w" ++ str "/missing.html")
        ++ str "Content-Length: 0\r\n\r\n") 1 :=
  notfound_response_shape (fun _ => false) (fun _ => none) (str "/w")
    (str "GET /missing.html HTTP/1.1\r\n") (str "GET") (str "/missing.html")
    (str "HTTP/1.1") (by decide) (by decide)

/-- Resolution verdict as the spec words it (readability instead of the
`access(_, F_OK)` existence check), for comparison with `get_full_path`. -/
def spec_resolve_found (readable : List Char → Bool)
    (webroot uri : List Char) : Prop :=
  ∃ e, after_last_dot (webroot ++ uri) = some e ∧
    readable (webroot ++ uri) = true ∧ supported_file e = true

/-- C4 counterexample: `access(path, F_OK)` checks existence, not
readability.  On a filesystem where `/w/a.html` exists (`access` true)
but is not readable, the code still reports `FOUND`, so the claimed
equivalence with the spec predicate (which demands readability) fails. -/
theorem resolve_found_iff_readable_counterexample :
    ¬ ((get_full_path (fun _ => true) (str "/w") (str "/a.html")).2 =
        Status.FOUND ↔
      spec_resolve_found (fun _ => false) (str "/w") (str "/a.html")) := by
  intro hiff
  rcases hiff.mp (by decide) with ⟨e, -, hr, -⟩
  exact absurd hr (by decide)

/-- C4 (amended): the verdict is `FOUND` iff the concatenated path has an
extension after its last dot, `access(path, F_OK)` succeeds (existence,
not readability), and the extension exactly matches one of the four
`file_map` entries; otherwise `NOT_FOUND`. -/
theorem get_full_path_found_iff (access : List Char → Bool)
    (webroot uri : List Char) :
    (get_full_path access webroot uri).2 = Status.FOUND ↔
      ∃ e, after_last_dot (webroot ++ uri) = some e ∧
        access (webroot ++ uri) = true ∧ supported_file e = true := by
  unfold get_full_path
  cases h : after_last_dot (webroot ++ uri) with
  | none => simp
  | some e0 =>
    dsimp only
    by_cases ha : access (webroot ++ uri) = true <;>
      by_cases hs : supported_file e0 = true <;>
        simp [ha, hs]

/-- C1: for a request whose URI concatenated to the web root carries a
supported extension (`.html`, `.jpg`, `.css`, `.js`) and names an
existing, readable file, `resolve` yields `FOUND` and the handler sends a
200 response whose Content-Length header value is exactly the decimal
rendering of the body length, followed by exactly the bytes of the
file. -/
theorem found_response_correct (access : List Char → Bool)
    (content : List Char → Option (List Char))
    (webroot raw m u v e body : List Char)
    (hp : parse_request raw = some ⟨m, u, v⟩)
    (he : after_last_dot (webroot ++ u) = some e)
    (hs : supported_file e = true)
    (ha : access (webroot ++ u) = true)
    (hc : content (webroot ++ u) = some body) :
    (get_full_path access webroot u).2 = Status.FOUND ∧
    ∃ mime, file_map.find? (fun p => p.1 = e) = some (e, mime) ∧
      process_client_request access content webroot (some raw) =
        Outcome.ok ((v ++ str " 200 OK\r\n"
            ++ (str "Content-Type: " ++ (mime ++ str "\r\n")))
          ++ (str "Content-Length: " ++ (decChars body.length
            ++ (str "\r\n\r\n" ++ body)))) 1 := by
  obtain ⟨mime, hf⟩ := find_of_supported e hs
  have hfd : get_full_path access webroot u = (webroot ++ u, Status.FOUND) := by
    unfold get_full_path
    rw [he]
    dsimp only
    rw [ha, hs]
    rfl
  refine ⟨by rw [hfd], mime, hf, ?_⟩
  rw [process_found_eq access content webroot raw m u v body hp hfd hc,
    read_write_file_eq]
  unfold construct_file_response
  rw [he]
  dsimp only
  rw [hf]
  dsimp only
  unfold write_headers
  rw [sprintf1_found, sprintf1_content]

/-- Witness for C1: web root `/srv/www`, request
`GET /index.html HTTP/1.1`, a readable 12-byte `index.html`. -/
theorem found_response_correct_witness :
    (get_full_path (fun _ => true) (str "/srv/www") (str "/index.html")).2 =
      Status.FOUND ∧
    ∃ mime, file_map.find? (fun p => p.1 = str ".html") =
        some (str ".html", mime) ∧
      process_client_request (fun _ => true)
        (fun _ => some (str "hello world!")) (str "/srv/www")
        (some (str "GET /index.html HTTP/1.1\r\n")) =
        Outcome.ok ((str "HTTP/1.1" ++ str " 200 OK\r\n"
            ++ (str "Content-Type: " ++ (mime ++ str "\r\n")))
          ++ (str "Content-Length: " ++ (decChars (str "hello world!").length
            ++ (str "\r\n\r\n" ++ str "hello world!")))) 1 :=
  found_response_correct (fun _ => true) (fun _ => some (str "hello world!"))
    (str "/srv/www") (str "GET /index.html HTTP/1.1\r\n") (str "GET")
    (str "/index.html") (str "HTTP/1.1") (str ".html") (str "hello world!")
    (by decide) (by decide) (by decide) rfl rfl

/-! ### Symbolic lemmas about `parse_request` (for C8) -/

/-- `truncAtNl` cuts exactly at the first newline. -/
lemma truncAtNl_of_not_mem : ∀ (a : List Char), '\n' ∉ a →
    ∀ r, truncAtNl (a ++ '\n' :: r) = a := by
  intro a
  induction a with
  | nil => intro _ r; simp [truncAtNl]
  | cons c t ih =>
    intro h r
    have hc : ¬ (c = '\n') := fun hh => h (by simp [hh])
    simp [truncAtNl, hc, ih (fun hm => h (List.mem_cons_of_mem _ hm)) r]

/-- `takeWhile` of "not the delimiter" stops exactly at the first
delimiter. -/
lemma takeWhile_ne_append (d : Char) : ∀ (m r : List Char), d ∉ m →
    (m ++ d :: r).takeWhile (fun c => c ≠ d) = m := by
  intro m
  induction m with
  | nil => intro r _; simp
  | cons c t ih =>
    intro r h
    have hc : c ≠ d := fun hh => h (by simp [hh])
    have ht := ih r (fun hm => h (List.mem_cons_of_mem _ hm))
    rw [List.cons_append, List.takeWhile_cons_of_pos (by simpa using hc), ht]

/-- `dropWhile` of the delimiter is the identity when the first character
is not the delimiter. -/
lemma dropWhile_eq_self_of_ne (d : Char) (m r : List Char) (hm0 : m ≠ [])
    (hmd : d ∉ m) :
    (m ++ d :: r).dropWhile (fun c => c = d) = m ++ d :: r := by
  obtain ⟨c, t, rfl⟩ := List.exists_cons_of_ne_nil hm0
  have hc : ¬ (c = d) := fun hh => hmd (by simp [hh])
  rw [List.cons_append, List.dropWhile_cons_of_neg (by simpa using hc),
    ← List.cons_append]

/-- `tok` on a buffer made of a clean token, the delimiter, and a rest
returns the token and the rest. -/
lemma tok_append (d : Char) (m r : List Char) (hm0 : m ≠ []) (hmd : d ∉ m) :
    tok (m ++ d :: r) d = some (m, r) := by
  unfold tok
  rw [dropWhile_eq_self_of_ne d m r hm0 hmd, if_neg (by simp),
    takeWhile_ne_append d m r hmd, List.drop_left]
  rfl

/-- `step1` on a newline-free first line followed by `'\n'` and arbitrary
further bytes truncates the buffer at that newline. -/
lemma step1_line (a rest : List Char) (ha0 : a ≠ []) (hanl : '\n' ∉ a) :
    step1 (a ++ '\n' :: rest) = a := by
  obtain ⟨c, t, rfl⟩ := List.exists_cons_of_ne_nil ha0
  have hc : ¬ (c = '\n') := fun hh => hanl (by simp [hh])
  have hcmem : '\n' ∉ t := fun hm => hanl (List.mem_cons_of_mem _ hm)
  unfold step1
  rw [List.cons_append, List.dropWhile_cons_of_neg (by simpa using hc),
    List.takeWhile_cons_of_neg (by simpa using hc)]
  rw [if_neg (by simp), if_pos (by simp)]
  rw [List.nil_append, ← List.cons_append, truncAtNl_of_not_mem _ hanl]

/-- C8 counterexample: the claim fails when the request line ends with a
bare `'\n'` instead of `"\r\n"`.  For `GET /a.html HTTP/1.1\n` the third
whitespace-separated token (with its line terminator trimmed) is
`HTTP/1.1`, yet the parse succeeds and stores `HTTP/1.`, because the code
unconditionally chops the final character of the tail after the URI. -/
theorem parse_request_version_counterexample :
    parse_request (str "GET /a.html HTTP/1.1\n") =
      some ⟨str "GET", str "/a.html", str "HTTP/1."⟩ ∧
    str "HTTP/1." ≠ str "HTTP/1.1" :=
  ⟨by decide, by decide⟩

/-- C8 (amended): for a request whose first line consists of exactly
three tokens separated by single spaces — none containing a space or a
newline — and terminated by `"\r\n"`, the parse succeeds and the stored
HTTP version is exactly the third token: the trailing `'\r'` left after
`strtok_r` consumed the `'\n'` is the character the code trims. -/
theorem parse_request_three_tokens (m u v rest : List Char)
    (hm0 : m ≠ []) (hmsp : ' ' ∉ m) (hmnl : '\n' ∉ m)
    (hu0 : u ≠ []) (husp : ' ' ∉ u) (hunl : '\n' ∉ u)
    (hv0 : v ≠ []) (hvsp : ' ' ∉ v) (hvnl : '\n' ∉ v) :
    parse_request
        (m ++ (' ' :: (u ++ (' ' :: (v ++ ('\r' :: ('\n' :: rest))))))) =
      some ⟨m, u, v⟩ := by
  have harg : (m ++ (' ' :: (u ++ (' ' :: (v ++ ['\r']))))) ++ ('\n' :: rest)
      = m ++ (' ' :: (u ++ (' ' :: (v ++ ('\r' :: ('\n' :: rest)))))) := by
    simp [List.append_assoc]
  have hb := step1_line (m ++ (' ' :: (u ++ (' ' :: (v ++ ['\r']))))) rest
    (by simp [hm0])
    (by simp [List.mem_append, List.mem_cons, hmnl, hunl, hvnl])
  rw [harg] at hb
  unfold parse_request
  rw [hb, tok_append ' ' m (u ++ (' ' :: (v ++ ['\r']))) hm0 hmsp]
  dsimp only
  rw [tok_append ' ' u (v ++ ['\r']) hu0 husp]
  dsimp only
  rw [if_neg (by simp)]
  simp

/-- Witness for C8 (amended): `GET /index.html HTTP/1.1\r\nHost: x\r\n`
parses to method `GET`, URI `/index.html`, version `HTTP/1.1`. -/
theorem parse_request_three_tokens_witness :
    parse_request
        (str "GET" ++ (' ' :: (str "/index.html" ++ (' ' :: (str "HTTP/1.1"
          ++ ('\r' :: ('\n' :: str "Host: x\r\n"))))))) =
      some ⟨str "GET", str "/index.html", str "HTTP/1.1"⟩ :=
  parse_request_three_tokens (str "GET") (str "/index.html") (str "HTTP/1.1")
    (str "Host: x\r\n") (by decide) (by decide) (by decide) (by decide)
    (by decide) (by decide) (by decide) (by decide) (by decide)

end Server
